import Mathlib

/-!
Verification of the license-manager core against its specification.

The definitions below are a shallow embedding of the TypeScript handlers:

* `activateLicenseKey`, `resetDeviceLock`, `bulkCreateLicenseKeys` embed the
  license-key handler (the file containing `activateLicenseKey` at lines
  284-363, `resetDeviceLock` at 365-397, `bulkCreateLicenseKeys` at 85-153);
* `getDashboardStats`, `getResellerStats` embed
  `src/server/src/handlers/dashboard.ts`;
* the row structures embed the drizzle tables of
  `src/server/src/db/schema.ts`.

The database is modelled as explicit lists of rows; wall-clock time is an
integer count of milliseconds (JavaScript `Date.getTime()`), with calendar
days of exactly `86400000` ms (no DST / timezone offset in the model, so
`setHours` boundaries are UTC midnights).  Each stateful handler is a
function from the database state (plus the current time and the random
stream where the source calls `Math.random`) to a result together with the
resulting database state; a thrown error leaves the state unchanged, which
in the model shows up as the original state being returned alongside the
error value.
-/

namespace LicenseManager

/-- Status enum of the `license_status` pgEnum. -/
inductive LicenseStatus where
  | active
  | expired
  | suspended
  | pending
deriving DecidableEq, Repr

/-- Role enum of the `user_role` pgEnum. -/
inductive UserRole where
  | developer
  | reseller
  | user
deriving DecidableEq, Repr

/-- A row of `license_keys` (drizzle `licenseKeysTable`).  Timestamps are
milliseconds; nullable columns are `Option`. -/
structure LicenseKeyRow where
  id : Nat
  key : String
  game_id : Nat
  customer_name : String
  customer_email : Option String
  device_id : Option String
  status : LicenseStatus
  expires_at : Int
  notes : Option String
  created_by : Nat
  created_at : Int
  updated_at : Option Int
  last_used_at : Option Int
deriving DecidableEq, Repr

/-- A row of `games` (drizzle `gamesTable`). -/
structure GameRow where
  id : Nat
  name : String
  description : Option String
  version : Option String
  is_active : Bool
deriving DecidableEq, Repr

/-- A row of `users` (drizzle `usersTable`); only the columns the verified
handlers read are carried. -/
structure UserRow where
  id : Nat
  username : String
  role : UserRole
  quota : Option Int
  is_active : Bool
deriving DecidableEq, Repr

/-- A row of `activity_logs` (drizzle `activityLogsTable`). -/
structure ActivityLogRow where
  license_key_id : Nat
  device_id : String
  action : String
  ip_address : Option String
  user_agent : Option String
  created_at : Int
deriving DecidableEq, Repr

/-- The persistent store: one list per table. -/
structure DB where
  users : List UserRow
  games : List GameRow
  licenseKeys : List LicenseKeyRow
  activityLogs : List ActivityLogRow
deriving DecidableEq, Repr

/-- Milliseconds in a day: `1000 * 60 * 60 * 24`. -/
def msPerDay : Int := 86400000

/-- Models JavaScript `Math.ceil(a / b)` for an integer `a` and a positive
integer `b` (exact rational ceiling; `/` on `Int` is Euclidean division,
which floors for a positive divisor). -/
def jsCeilDiv (a b : Int) : Int := -((-a) / b)

/-- Models the JavaScript expression `q || 0` on a nullable number `q`
(truthiness: both `null` and `0` yield `0`). -/
def jsNumOrZero (q : Option Int) : Int :=
  match q with
  | none => 0
  | some v => if v = 0 then 0 else v

/-- Embeds the device-lock test of `activateLicenseKey`:
`licenseData.device_id && licenseData.device_id !== input.device_id`.
JavaScript truthiness makes both `null` and the empty string pass the
first conjunct, so an empty stored `device_id` never blocks. -/
def deviceLockBlocks (stored : Option String) (requesting : String) : Bool :=
  match stored with
  | none => false
  | some s => !(s == "") && !(s == requesting)

/-- `SELECT ... FROM license_keys WHERE key = k`, first row (`key` carries a
uniqueness constraint in the schema, so at most one row matches in any
real store). -/
def findLicenseRowByKey (db : DB) (k : String) : Option LicenseKeyRow :=
  db.licenseKeys.find? (fun r => r.key = k)

/-- `SELECT ... FROM games WHERE id = gid`, first row. -/
def findGameById (db : DB) (gid : Nat) : Option GameRow :=
  db.games.find? (fun g => g.id = gid)

/-- `SELECT ... FROM users WHERE id = uid`, first row. -/
def findUserById (db : DB) (uid : Nat) : Option UserRow :=
  db.users.find? (fun u => u.id = uid)

/-- `SELECT ... FROM license_keys WHERE id = kid`, first row
(`getLicenseKeyById`). -/
def findLicenseRowById (db : DB) (kid : Nat) : Option LicenseKeyRow :=
  db.licenseKeys.find? (fun r => r.id = kid)

/-- The lookup of `activateLicenseKey` lines 287-304: the key row inner-joined
with its game; an absent key or an absent game both give the empty result
set and hence `NotFound`. -/
def lookupKeyWithGame (db : DB) (k : String) : Option (LicenseKeyRow × GameRow) :=
  match findLicenseRowByKey db k with
  | none => none
  | some row =>
    match findGameById db row.game_id with
    | none => none
    | some game => some (row, game)

/-- The distinct error kinds thrown by the activation/reset/stats handlers. -/
inductive ActivationError where
  | NotFound
  | Expired
  | Suspended
  | DeviceLocked
deriving DecidableEq, Repr

/-- The `LicenseDetails` record returned by a successful activation
(`licenseDetailsSchema`); `device_id` is the requesting device, hence a
plain `String` here. -/
structure LicenseDetails where
  license_key : String
  game_name : String
  customer_name : String
  device_id : String
  expires_at : Int
  status : LicenseStatus
  notes : Option String
  days_until_expiry : Int
  is_expiring_soon : Bool
deriving DecidableEq, Repr

/-- The row update of `activateLicenseKey` lines 325-332: on the row whose
`id` matches, set `device_id` to the requesting device and refresh
`last_used_at` and `updated_at` to `now`. -/
def applyActivationUpdate (targetId : Nat) (dev : String) (now : Int)
    (r : LicenseKeyRow) : LicenseKeyRow :=
  if r.id = targetId then
    { r with device_id := some dev, last_used_at := some now, updated_at := some now }
  else r

/-- The ActivityLog row inserted by `activateLicenseKey` lines 335-342. -/
def activationLog (targetId : Nat) (dev : String) (now : Int) : ActivityLogRow :=
  { license_key_id := targetId
    device_id := dev
    action := "activation"
    ip_address := none
    user_agent := none
    created_at := now }

/-- Embeds `activateLicenseKey` (lines 284-363).  Checks run in source order:
lookup (`NotFound`), strict past-due test `expires_at < now` (`Expired`),
stored status `suspended` (`Suspended`), truthy-and-different device lock
(`DeviceLocked`); otherwise the row update and the log insert are applied
and the details record is returned with
`days_until_expiry = Math.ceil((expires_at - now) / 86400000)` and
`is_expiring_soon = days_until_expiry <= 3`. -/
def activateLicenseKey (db : DB) (now : Int) (license_key device_id : String) :
    Except ActivationError LicenseDetails × DB :=
  match lookupKeyWithGame db license_key with
  | none => (Except.error ActivationError.NotFound, db)
  | some (licenseData, game) =>
    if licenseData.expires_at < now then
      (Except.error ActivationError.Expired, db)
    else if licenseData.status = LicenseStatus.suspended then
      (Except.error ActivationError.Suspended, db)
    else if deviceLockBlocks licenseData.device_id device_id then
      (Except.error ActivationError.DeviceLocked, db)
    else
      let db1 : DB :=
        { db with
            licenseKeys :=
              db.licenseKeys.map (applyActivationUpdate licenseData.id device_id now) }
      let db2 : DB :=
        { db1 with
            activityLogs :=
              db1.activityLogs ++ [activationLog licenseData.id device_id now] }
      let daysUntilExpiry : Int := jsCeilDiv (licenseData.expires_at - now) msPerDay
      (Except.ok
        { license_key := licenseData.key
          game_name := game.name
          customer_name := licenseData.customer_name
          device_id := device_id
          expires_at := licenseData.expires_at
          status := licenseData.status
          notes := licenseData.notes
          days_until_expiry := daysUntilExpiry
          is_expiring_soon := decide (daysUntilExpiry ≤ 3) }, db2)

/-- The row update of `resetDeviceLock` lines 374-380: clear `device_id`,
refresh `updated_at`. -/
def applyResetUpdate (targetId : Nat) (now : Int) (r : LicenseKeyRow) : LicenseKeyRow :=
  if r.id = targetId then { r with device_id := none, updated_at := some now } else r

/-- The ActivityLog row inserted by `resetDeviceLock` lines 383-390. -/
def resetLog (targetId : Nat) (now : Int) : ActivityLogRow :=
  { license_key_id := targetId
    device_id := "admin_reset"
    action := "device_reset"
    ip_address := none
    user_agent := none
    created_at := now }

/-- Embeds `resetDeviceLock` (lines 365-397): `NotFound` when no row has the
given id, otherwise clear the device lock, refresh `updated_at`, and append
one `device_reset` log row with the `admin_reset` sentinel device. -/
def resetDeviceLock (db : DB) (now : Int) (license_key_id : Nat) :
    Except ActivationError Bool × DB :=
  match findLicenseRowById db license_key_id with
  | none => (Except.error ActivationError.NotFound, db)
  | some _ =>
    let db1 : DB :=
      { db with licenseKeys := db.licenseKeys.map (applyResetUpdate license_key_id now) }
    let db2 : DB :=
      { db1 with activityLogs := db1.activityLogs ++ [resetLog license_key_id now] }
    (Except.ok true, db2)

/-- The `DashboardStats` record. -/
structure DashboardStats where
  total_resellers : Nat
  total_active_keys : Nat
  total_expired_keys : Nat
  total_logins_today : Nat
  expiring_keys_3_days : Nat
deriving DecidableEq, Repr

/-- `today.setHours(0, 0, 0, 0)` of `getDashboardStats`: midnight of the
current day. -/
def startOfToday (now : Int) : Int := (now / msPerDay) * msPerDay

/-- `threeDaysFromNow` of `getDashboardStats` lines 12-14:
`setDate(getDate() + 3)` then `setHours(23, 59, 59, 999)`, i.e. the last
millisecond of the calendar day three days after today — not `now + 3 days`. -/
def endOfDayThreeDaysFromNow (now : Int) : Int :=
  (now / msPerDay + 3) * msPerDay + (msPerDay - 1)

/-- Embeds `getDashboardStats` (dashboard.ts lines 6-82): five independent
counts over the store at time `now`. -/
def getDashboardStats (db : DB) (now : Int) : DashboardStats :=
  { total_resellers :=
      (db.users.filter (fun u =>
        decide (u.role = UserRole.reseller) && u.is_active)).length
    total_active_keys :=
      (db.licenseKeys.filter (fun r => decide (r.status = LicenseStatus.active))).length
    total_expired_keys :=
      (db.licenseKeys.filter (fun r => decide (r.status = LicenseStatus.expired))).length
    total_logins_today :=
      (db.activityLogs.filter (fun a =>
        decide (a.action = "login") && decide (startOfToday now ≤ a.created_at))).length
    expiring_keys_3_days :=
      (db.licenseKeys.filter (fun r =>
        decide (r.status = LicenseStatus.active) &&
        decide (r.expires_at ≤ endOfDayThreeDaysFromNow now))).length }

/-- The per-reseller statistics record of `getResellerStats`. -/
structure ResellerStats where
  total_keys : Nat
  active_keys : Nat
  expired_keys : Nat
  quota_used : Nat
  quota_remaining : Int
deriving DecidableEq, Repr

/-- Embeds `getResellerStats` (dashboard.ts lines 84-156): `NotFound` for a
missing user; otherwise counts of the reseller's keys, with
`quota = reseller.quota || 0`, `quota_used = total_keys` and
`quota_remaining = Math.max(0, quota - quota_used)`.  The handler is
read-only, so no updated state is returned. -/
def getResellerStats (db : DB) (resellerId : Nat) : Except ActivationError ResellerStats :=
  match findUserById db resellerId with
  | none => Except.error ActivationError.NotFound
  | some reseller =>
    let quota : Int := jsNumOrZero reseller.quota
    let totalKeys : Nat :=
      (db.licenseKeys.filter (fun r => decide (r.created_by = resellerId))).length
    let activeKeys : Nat :=
      (db.licenseKeys.filter (fun r =>
        decide (r.created_by = resellerId) && decide (r.status = LicenseStatus.active))).length
    let expiredKeys : Nat :=
      (db.licenseKeys.filter (fun r =>
        decide (r.created_by = resellerId) && decide (r.status = LicenseStatus.expired))).length
    Except.ok
      { total_keys := totalKeys
        active_keys := activeKeys
        expired_keys := expiredKeys
        quota_used := totalKeys
        quota_remaining := max 0 (quota - (totalKeys : Int)) }

/-- Error kinds thrown by `bulkCreateLicenseKeys`. -/
inductive BulkCreateError where
  | GameNotFound
  | CreatorNotFound
  | KeyGenerationExhausted
deriving DecidableEq, Repr

/-- The `BulkCreateLicenseKeysInput` record (zod
`bulkCreateLicenseKeysInputSchema`). -/
structure BulkCreateInput where
  game_id : Nat
  customer_names : List String
  customer_emails : Option (List (Option String))
  expires_at : Int
  notes : Option String
  created_by : Nat
deriving DecidableEq, Repr

/-- Models the JavaScript expression `e || null` on a nullable string `e`
(truthiness: the empty string collapses to `null`). -/
def jsStrOrNull (e : Option String) : Option String :=
  match e with
  | none => none
  | some s => if s = "" then none else some s

/-- Models `input.customer_emails?.[i] || null` of `bulkCreateLicenseKeys`
line 134: optional chaining on the array, indexing that may fall off the
end, then truthiness. -/
def bulkEmailAt (emails : Option (List (Option String))) (i : Nat) : Option String :=
  match emails with
  | none => none
  | some l =>
    match l.get? i with
    | none => none
    | some e => jsStrOrNull e

/-- One run of the do/while loop of `bulkCreateLicenseKeys` lines 115-124,
with the candidates that `generateLicenseKeyString` would produce supplied
as a stream indexed by how many candidates have been drawn so far.  The
first argument of the recursion is the next stream index, the second the
remaining attempts (`maxAttempts - attempts`, starting at 10); a candidate
is accepted exactly when it is neither an existing stored key
(`existing.length === 0`) nor a key already generated for this batch
(`!keyData.some(k => k.key === generatedKey)`). -/
def generateUniqueKeyInBatch (stream : Nat → String)
    (storeKeys batchKeys : List String) : Nat → Nat → Option (String × Nat)
  | _, 0 => none
  | idx, fuel + 1 =>
    let candidate := stream idx
    if candidate ∈ storeKeys ∨ candidate ∈ batchKeys then
      generateUniqueKeyInBatch stream storeKeys batchKeys (idx + 1) fuel
    else
      some (candidate, idx + 1)

/-- The key-generation `for` loop of `bulkCreateLicenseKeys` lines 107-140,
restricted to the key strings: one key per remaining customer, each drawn
by `generateUniqueKeyInBatch` against the store and the batch collected so
far, `none` when any customer exhausts its 10 attempts. -/
def generateBatchKeys (stream : Nat → String) (storeKeys : List String) :
    Nat → List String → Nat → Option (List String × Nat)
  | 0, batch, idx => some (batch, idx)
  | n + 1, batch, idx =>
    match generateUniqueKeyInBatch stream storeKeys batch idx 10 with
    | none => none
    | some (k, idx2) => generateBatchKeys stream storeKeys n (batch ++ [k]) idx2

/-- The row that `bulkCreateLicenseKeys` builds for batch member `i` and key
string `k` (lines 130-139 plus the serial id and `defaultNow` columns the
insert fills in). -/
def bulkKeyRow (input : BulkCreateInput) (now : Int) (nextId : Nat)
    (i : Nat) (k : String) : LicenseKeyRow :=
  { id := nextId + i
    key := k
    game_id := input.game_id
    customer_name := (input.customer_names.get? i).getD ""
    customer_email := bulkEmailAt input.customer_emails i
    device_id := none
    status := LicenseStatus.active
    expires_at := input.expires_at
    notes := input.notes
    created_by := input.created_by
    created_at := now
    updated_at := none
    last_used_at := none }

/-- Pairs each generated key string with its batch member row. -/
def buildBulkRows (input : BulkCreateInput) (now : Int) (nextId : Nat) :
    List String → Nat → List LicenseKeyRow
  | [], _ => []
  | k :: ks, i => bulkKeyRow input now nextId i k :: buildBulkRows input now nextId ks (i + 1)

/-- Embeds `bulkCreateLicenseKeys` (lines 85-153): validate the game and the
creator, generate one unique key per customer (checking the store and the
in-memory batch), then bulk-insert all rows.  `nextId` supplies the serial
ids of the insert. -/
def bulkCreateLicenseKeys (db : DB) (stream : Nat → String) (now : Int)
    (nextId : Nat) (input : BulkCreateInput) :
    Except BulkCreateError (List LicenseKeyRow) × DB :=
  match findGameById db input.game_id with
  | none => (Except.error BulkCreateError.GameNotFound, db)
  | some _ =>
    match findUserById db input.created_by with
    | none => (Except.error BulkCreateError.CreatorNotFound, db)
    | some _ =>
      match generateBatchKeys stream (db.licenseKeys.map (fun r => r.key))
          input.customer_names.length [] 0 with
      | none => (Except.error BulkCreateError.KeyGenerationExhausted, db)
      | some (keys, _) =>
        let rows := buildBulkRows input now nextId keys 0
        (Except.ok rows, { db with licenseKeys := db.licenseKeys ++ rows })

/-- The `LicenseDetails` record a successful activation of `row` (joined with
`game`) from device `dev` at time `now` returns. -/
def activationDetails (row : LicenseKeyRow) (game : GameRow) (dev : String)
    (now : Int) : LicenseDetails :=
  { license_key := row.key
    game_name := game.name
    customer_name := row.customer_name
    device_id := dev
    expires_at := row.expires_at
    status := row.status
    notes := row.notes
    days_until_expiry := jsCeilDiv (row.expires_at - now) msPerDay
    is_expiring_soon := decide (jsCeilDiv (row.expires_at - now) msPerDay ≤ 3) }

/-- The store after the two writes of a successful activation. -/
def activationResultDB (db : DB) (targetId : Nat) (dev : String) (now : Int) : DB :=
  { db with
      licenseKeys := db.licenseKeys.map (applyActivationUpdate targetId dev now)
      activityLogs := db.activityLogs ++ [activationLog targetId dev now] }

/-- The store after the two writes of a successful device-lock reset. -/
def resetResultDB (db : DB) (targetId : Nat) (now : Int) : DB :=
  { db with
      licenseKeys := db.licenseKeys.map (applyResetUpdate targetId now)
      activityLogs := db.activityLogs ++ [resetLog targetId now] }

/-- Claim C3's words for `expiring_keys_3_days`: stored status `active` and
`expires_at` at most `now` plus exactly 3 days (72 hours), with no lower
bound.  Stated from the claim for comparison with `getDashboardStats`,
whose actual threshold is `endOfDayThreeDaysFromNow now`. -/
def expiringKeys3DaysSpecC3 (db : DB) (now : Int) : Nat :=
  (db.licenseKeys.filter (fun r =>
    decide (r.status = LicenseStatus.active) &&
    decide (r.expires_at ≤ now + 3 * msPerDay))).length

/-! Concrete sample data used by the witness and counterexample theorems. -/

/-- A game every sample key references. -/
def sampleGame : GameRow :=
  { id := 1, name := "G", description := none, version := none, is_active := true }

/-- A reseller with `quota = 3`. -/
def sampleUser : UserRow :=
  { id := 9, username := "res", role := UserRole.reseller, quota := some 3, is_active := true }

/-- An unlocked active key expiring at t = 100. -/
def sampleRow : LicenseKeyRow :=
  { id := 1
    key := "KEY1"
    game_id := 1
    customer_name := "Ada"
    customer_email := none
    device_id := none
    status := LicenseStatus.active
    expires_at := 100
    notes := none
    created_by := 9
    created_at := 0
    updated_at := none
    last_used_at := none }

/-- Store with the single unlocked key `sampleRow`. -/
def sampleDb : DB :=
  { users := [sampleUser], games := [sampleGame], licenseKeys := [sampleRow], activityLogs := [] }

/-- A key whose stored `device_id` is the empty string. -/
def emptyDeviceRow : LicenseKeyRow := { sampleRow with device_id := some "" }

/-- Store with the single empty-`device_id` key. -/
def emptyDeviceDb : DB :=
  { users := [], games := [sampleGame], licenseKeys := [emptyDeviceRow], activityLogs := [] }

/-- A key locked to device `A`. -/
def lockedRow : LicenseKeyRow := { sampleRow with device_id := some "A" }

/-- Store with the single `A`-locked key. -/
def lockedDb : DB :=
  { users := [], games := [sampleGame], licenseKeys := [lockedRow], activityLogs := [] }

/-- An active key expiring one millisecond after `now + 3 days` for `now = 0`. -/
def lateExpiringRow : LicenseKeyRow := { sampleRow with expires_at := 259200001 }

/-- Store with the single late-expiring key. -/
def lateExpiringDb : DB :=
  { users := [], games := [sampleGame], licenseKeys := [lateExpiringRow], activityLogs := [] }

/-- An active key whose `expires_at` is already in the past at t = 0. -/
def pastDueRow : LicenseKeyRow := { sampleRow with expires_at := -5 }

/-- Store with the single past-due key. -/
def pastDueDb : DB :=
  { users := [], games := [sampleGame], licenseKeys := [pastDueRow], activityLogs := [] }

/-- A key locked to `A` that expired at t = 5. -/
def expiredLockedRow : LicenseKeyRow :=
  { sampleRow with device_id := some "A", expires_at := 5 }

/-- Store with the single expired `A`-locked key. -/
def expiredLockedDb : DB :=
  { users := [], games := [sampleGame], licenseKeys := [expiredLockedRow], activityLogs := [] }

/-- A key expiring exactly 72 hours after t = 0. -/
def row72h : LicenseKeyRow := { sampleRow with expires_at := 259200000 }

/-- Store with the single 72-hour key. -/
def db72h : DB :=
  { users := [], games := [sampleGame], licenseKeys := [row72h], activityLogs := [] }

/-- A key with stored status `expired` but a future `expires_at`. -/
def staleExpiredRow : LicenseKeyRow := { sampleRow with status := LicenseStatus.expired }

/-- Store with the single stale-`expired` key. -/
def staleExpiredDb : DB :=
  { users := [], games := [sampleGame], licenseKeys := [staleExpiredRow], activityLogs := [] }

/-- Five keys issued by reseller 9 (ids 11-15). -/
def fiveKeys : List LicenseKeyRow :=
  [ { sampleRow with id := 11, key := "Q1" }
  , { sampleRow with id := 12, key := "Q2" }
  , { sampleRow with id := 13, key := "Q3" }
  , { sampleRow with id := 14, key := "Q4" }
  , { sampleRow with id := 15, key := "Q5" } ]

/-- Store in which reseller 9 (quota 3) has issued five keys. -/
def quotaDb : DB :=
  { users := [sampleUser], games := [sampleGame], licenseKeys := fiveKeys, activityLogs := [] }

/-- The reseller statistics `getResellerStats quotaDb 9` returns. -/
def quotaStats : ResellerStats :=
  { total_keys := 5, active_keys := 5, expired_keys := 0, quota_used := 5, quota_remaining := 0 }

/-- A deterministic candidate stream for the bulk witness: decimal numerals. -/
def numeralStream (n : Nat) : String := toString n

/-- A two-customer bulk request for game 1 by reseller 9. -/
def bulkInput : BulkCreateInput :=
  { game_id := 1
    customer_names := ["a", "b"]
    customer_emails := none
    expires_at := 1000
    notes := none
    created_by := 9 }

/-- Store the bulk witness starts from: the game and the reseller, no keys. -/
def bulkDb : DB :=
  { users := [sampleUser], games := [sampleGame], licenseKeys := [], activityLogs := [] }

/-- The rows `bulkCreateLicenseKeys bulkDb numeralStream 0 10 bulkInput` inserts. -/
def bulkRows : List LicenseKeyRow :=
  [bulkKeyRow bulkInput 0 10 0 "0", bulkKeyRow bulkInput 0 10 1 "1"]

/-! General lemmas about the embedded operations. -/

theorem applyActivationUpdate_key (targetId : Nat) (dev : String) (now : Int)
    (r : LicenseKeyRow) : (applyActivationUpdate targetId dev now r).key = r.key := by
  unfold applyActivationUpdate
  split <;> rfl

theorem applyResetUpdate_key (targetId : Nat) (now : Int) (r : LicenseKeyRow) :
    (applyResetUpdate targetId now r).key = r.key := by
  unfold applyResetUpdate
  split <;> rfl

theorem find?_key_map (f : LicenseKeyRow → LicenseKeyRow)
    (hf : ∀ r, (f r).key = r.key) (l : List LicenseKeyRow) (k : String) :
    (l.map f).find? (fun r => r.key = k) = (l.find? (fun r => r.key = k)).map f := by
  have hp : ((fun r : LicenseKeyRow => decide (r.key = k)) ∘ f) =
      (fun r : LicenseKeyRow => decide (r.key = k)) := by
    funext r
    simp [Function.comp, hf]
  rw [List.find?_map, hp]

theorem findLicenseRowByKey_activationResultDB (db : DB) (tid : Nat) (dev : String)
    (now : Int) (k : String) :
    findLicenseRowByKey (activationResultDB db tid dev now) k =
      (findLicenseRowByKey db k).map (applyActivationUpdate tid dev now) := by
  simp only [findLicenseRowByKey, activationResultDB]
  exact find?_key_map _ (applyActivationUpdate_key tid dev now) _ k

theorem findLicenseRowByKey_resetResultDB (db : DB) (tid : Nat) (now : Int) (k : String) :
    findLicenseRowByKey (resetResultDB db tid now) k =
      (findLicenseRowByKey db k).map (applyResetUpdate tid now) := by
  simp only [findLicenseRowByKey, resetResultDB]
  exact find?_key_map _ (applyResetUpdate_key tid now) _ k

theorem activate_lookup_none {db : DB} {now : Int} {lk dev : String}
    (hl : lookupKeyWithGame db lk = none) :
    activateLicenseKey db now lk dev = (Except.error ActivationError.NotFound, db) := by
  unfold activateLicenseKey
  rw [hl]

theorem activate_expired {db : DB} {now : Int} {lk dev : String}
    {row : LicenseKeyRow} {game : GameRow}
    (hl : lookupKeyWithGame db lk = some (row, game)) (h : row.expires_at < now) :
    activateLicenseKey db now lk dev = (Except.error ActivationError.Expired, db) := by
  unfold activateLicenseKey
  rw [hl]
  simp only [if_pos h]

theorem activate_suspended {db : DB} {now : Int} {lk dev : String}
    {row : LicenseKeyRow} {game : GameRow}
    (hl : lookupKeyWithGame db lk = some (row, game)) (hexp : ¬ row.expires_at < now)
    (hs : row.status = LicenseStatus.suspended) :
    activateLicenseKey db now lk dev = (Except.error ActivationError.Suspended, db) := by
  unfold activateLicenseKey
  rw [hl]
  simp only [if_neg hexp, if_pos hs]

theorem activate_device_locked {db : DB} {now : Int} {lk dev : String}
    {row : LicenseKeyRow} {game : GameRow}
    (hl : lookupKeyWithGame db lk = some (row, game)) (hexp : ¬ row.expires_at < now)
    (hs : row.status ≠ LicenseStatus.suspended)
    (hd : deviceLockBlocks row.device_id dev = true) :
    activateLicenseKey db now lk dev = (Except.error ActivationError.DeviceLocked, db) := by
  unfold activateLicenseKey
  rw [hl]
  simp only [if_neg hexp, if_neg hs, if_pos hd]

theorem activate_ok {db : DB} {now : Int} {lk dev : String}
    {row : LicenseKeyRow} {game : GameRow}
    (hl : lookupKeyWithGame db lk = some (row, game)) (hexp : ¬ row.expires_at < now)
    (hs : row.status ≠ LicenseStatus.suspended)
    (hd : deviceLockBlocks row.device_id dev = false) :
    activateLicenseKey db now lk dev =
      (Except.ok (activationDetails row game dev now),
       activationResultDB db row.id dev now) := by
  unfold activateLicenseKey
  rw [hl]
  simp only [if_neg hexp, if_neg hs, hd]
  rfl

theorem activate_ok_inv {db : DB} {now : Int} {lk dev : String} {details : LicenseDetails}
    (h : (activateLicenseKey db now lk dev).1 = Except.ok details) :
    ∃ row game, lookupKeyWithGame db lk = some (row, game) ∧
      ¬ row.expires_at < now ∧ row.status ≠ LicenseStatus.suspended ∧
      deviceLockBlocks row.device_id dev = false ∧
      details = activationDetails row game dev now ∧
      activateLicenseKey db now lk dev =
        (Except.ok (activationDetails row game dev now),
         activationResultDB db row.id dev now) := by
  rcases hl : lookupKeyWithGame db lk with _ | ⟨row, game⟩
  · rw [activate_lookup_none hl] at h
    exact absurd h (by simp)
  · by_cases hexp : row.expires_at < now
    · rw [activate_expired hl hexp] at h
      exact absurd h (by simp)
    · by_cases hs : row.status = LicenseStatus.suspended
      · rw [activate_suspended hl hexp hs] at h
        exact absurd h (by simp)
      · cases hd : deviceLockBlocks row.device_id dev with
        | true =>
          rw [activate_device_locked hl hexp hs hd] at h
          exact absurd h (by simp)
        | false =>
          have heq := @activate_ok db now lk dev row game hl hexp hs hd
          refine ⟨row, game, rfl, hexp, hs, hd, ?_, heq⟩
          rw [heq] at h
          exact (Except.ok.inj h).symm

theorem activate_error_db {db : DB} {now : Int} {lk dev : String} {e : ActivationError}
    (h : (activateLicenseKey db now lk dev).1 = Except.error e) :
    (activateLicenseKey db now lk dev).2 = db := by
  rcases hl : lookupKeyWithGame db lk with _ | ⟨row, game⟩
  · rw [activate_lookup_none hl]
  · by_cases hexp : row.expires_at < now
    · rw [activate_expired hl hexp]
    · by_cases hs : row.status = LicenseStatus.suspended
      · rw [activate_suspended hl hexp hs]
      · cases hd : deviceLockBlocks row.device_id dev with
        | true => rw [activate_device_locked hl hexp hs hd]
        | false =>
          rw [activate_ok hl hexp hs hd] at h
          exact absurd h (by simp)

theorem jsNumOrZero_eq_getD (q : Option Int) : jsNumOrZero q = q.getD 0 := by
  cases q with
  | none => rfl
  | some v =>
    by_cases hv : v = 0
    · simp [jsNumOrZero, hv]
    · simp [jsNumOrZero, hv]

theorem jsCeilDiv_msPerDay_bracket (a : Int) :
    (jsCeilDiv a msPerDay - 1) * msPerDay < a ∧ a ≤ jsCeilDiv a msPerDay * msPerDay := by
  unfold jsCeilDiv msPerDay
  omega

theorem le_endOfDayThreeDaysFromNow (now : Int) : now ≤ endOfDayThreeDaysFromNow now := by
  unfold endOfDayThreeDaysFromNow msPerDay
  omega

theorem generateUniqueKeyInBatch_spec (stream : Nat → String)
    (storeKeys batchKeys : List String) :
    ∀ fuel idx k idx2,
      generateUniqueKeyInBatch stream storeKeys batchKeys idx fuel = some (k, idx2) →
      k ∉ storeKeys ∧ k ∉ batchKeys := by
  intro fuel
  induction fuel with
  | zero =>
    intro idx k idx2 h
    simp [generateUniqueKeyInBatch] at h
  | succ n ih =>
    intro idx k idx2 h
    rw [generateUniqueKeyInBatch] at h
    by_cases hmem : stream idx ∈ storeKeys ∨ stream idx ∈ batchKeys
    · rw [if_pos hmem] at h
      exact ih (idx + 1) k idx2 h
    · rw [if_neg hmem] at h
      obtain ⟨hk, -⟩ := Prod.mk.inj (Option.some.inj h)
      subst hk
      push_neg at hmem
      exact hmem

theorem generateBatchKeys_spec (stream : Nat → String) (storeKeys : List String) :
    ∀ n batch idx keys idx2,
      batch.Nodup → (∀ k ∈ batch, k ∉ storeKeys) →
      generateBatchKeys stream storeKeys n batch idx = some (keys, idx2) →
      keys.Nodup ∧ ∀ k ∈ keys, k ∉ storeKeys := by
  intro n
  induction n with
  | zero =>
    intro batch idx keys idx2 hnd hst h
    rw [generateBatchKeys] at h
    obtain ⟨hb, -⟩ := Prod.mk.inj (Option.some.inj h)
    subst hb
    exact ⟨hnd, hst⟩
  | succ m ih =>
    intro batch idx keys idx2 hnd hst h
    rw [generateBatchKeys] at h
    cases hg : generateUniqueKeyInBatch stream storeKeys batch idx 10 with
    | none => rw [hg] at h; exact absurd h (by simp)
    | some p =>
      obtain ⟨k1, idx1⟩ := p
      rw [hg] at h
      obtain ⟨hkst, hkb⟩ := generateUniqueKeyInBatch_spec stream storeKeys batch 10 idx k1 idx1 hg
      refine ih (batch ++ [k1]) idx1 keys idx2 ?_ ?_ h
      · simp [List.nodup_append, hnd, hkb]
      · intro k hk
        rcases List.mem_append.mp hk with h1 | h2
        · exact hst k h1
        · rw [List.mem_singleton.mp h2]
          exact hkst

theorem buildBulkRows_map_key (input : BulkCreateInput) (now : Int) (nextId : Nat) :
    ∀ ks i, (buildBulkRows input now nextId ks i).map (fun r => r.key) = ks := by
  intro ks
  induction ks with
  | nil => intro i; rfl
  | cons k t ih =>
    intro i
    simp only [buildBulkRows, List.map_cons, ih]
    rfl

theorem lookupKeyWithGame_inv {db : DB} {k : String}
    {row : LicenseKeyRow} {game : GameRow}
    (hl : lookupKeyWithGame db k = some (row, game)) :
    findLicenseRowByKey db k = some row ∧ findGameById db row.game_id = some game := by
  unfold lookupKeyWithGame at hl
  split at hl
  · exact absurd hl (by simp)
  · rename_i r hf
    split at hl
    · exact absurd hl (by simp)
    · rename_i g hg
      obtain ⟨h1, h2⟩ := Prod.mk.inj (Option.some.inj hl)
      subst h1
      subst h2
      exact ⟨hf, hg⟩

/-! The claims. -/

/-- C1 (amended): activation evaluates its checks in the source's fixed order,
the first failing check deciding the outcome — (1) `NotFound` when the key
joined with its game is absent; (2) `Expired` when `expires_at` is strictly
before `now`, regardless of the stored status; (3) `Suspended` when the
stored status is `suspended`; (4) `DeviceLocked` when the stored
`device_id` is a NON-EMPTY string differing from the requesting device
(amendment: the source tests JavaScript truthiness, so an empty stored
`device_id` does not count as locked); (5) otherwise success: `device_id`
becomes the requesting device, `last_used_at` and `updated_at` become
`now`, and exactly one ActivityLog row with action `activation` and the
requesting device id is appended. -/
theorem claim_C1_activation_check_order (db : DB) (now : Int) (lk dev : String) :
    (lookupKeyWithGame db lk = none →
      activateLicenseKey db now lk dev = (Except.error ActivationError.NotFound, db)) ∧
    ∀ row game, lookupKeyWithGame db lk = some (row, game) →
      (row.expires_at < now →
        activateLicenseKey db now lk dev = (Except.error ActivationError.Expired, db)) ∧
      (¬ row.expires_at < now → row.status = LicenseStatus.suspended →
        activateLicenseKey db now lk dev = (Except.error ActivationError.Suspended, db)) ∧
      (¬ row.expires_at < now → row.status ≠ LicenseStatus.suspended →
        ∀ s, row.device_id = some s → s ≠ "" → s ≠ dev →
          activateLicenseKey db now lk dev =
            (Except.error ActivationError.DeviceLocked, db)) ∧
      (¬ row.expires_at < now → row.status ≠ LicenseStatus.suspended →
        (row.device_id = none ∨ row.device_id = some "" ∨ row.device_id = some dev) →
          activateLicenseKey db now lk dev =
            (Except.ok (activationDetails row game dev now),
             activationResultDB db row.id dev now)) := by
  refine ⟨fun hl => activate_lookup_none hl, fun row game hl =>
    ⟨fun h => activate_expired hl h,
     fun hexp hs => activate_suspended hl hexp hs,
     fun hexp hs s hds hne hdiff => ?_,
     fun hexp hs hd => ?_⟩⟩
  · apply activate_device_locked hl hexp hs
    rw [hds]
    simp [deviceLockBlocks, hne, hdiff]
  · apply activate_ok hl hexp hs
    rcases hd with h | h | h <;> rw [h] <;> simp [deviceLockBlocks]

/-- Witness for C1: the success clause at a concrete store — an unlocked,
unexpired, active key activated from device `D1` at t = 0. -/
theorem claim_C1_witness :
    activateLicenseKey sampleDb 0 "KEY1" "D1" =
      (Except.ok (activationDetails sampleRow sampleGame "D1" 0),
       activationResultDB sampleDb 1 "D1" 0) :=
  ((claim_C1_activation_check_order sampleDb 0 "KEY1" "D1").2 sampleRow sampleGame
    rfl).2.2.2 (by decide) (by decide) (Or.inl rfl)

/-- Counterexample for C1 as frozen: a stored `device_id` that is set
(non-null, the empty string) and differs from the requesting device `X`
does not produce `DeviceLocked` — the activation succeeds, because the
source tests truthiness rather than non-nullness. -/
theorem claim_C1_counterexample :
    emptyDeviceRow.device_id ≠ none ∧
    emptyDeviceRow.device_id ≠ some "X" ∧
    lookupKeyWithGame emptyDeviceDb "KEY1" = some (emptyDeviceRow, sampleGame) ∧
    (activateLicenseKey emptyDeviceDb 0 "KEY1" "X").1 =
      Except.ok (activationDetails emptyDeviceRow sampleGame "X" 0) :=
  ⟨by decide, by decide, rfl, rfl⟩

/-- C2: a failing activation (any of the four error kinds) applies no side
effects — the store it returns is the original one, so the key row (its
`device_id`, `last_used_at`, `updated_at` included) and the activity log
are unchanged. -/
theorem claim_C2_no_side_effects_on_failure (db : DB) (now : Int) (lk dev : String)
    (e : ActivationError)
    (h : (activateLicenseKey db now lk dev).1 = Except.error e) :
    (activateLicenseKey db now lk dev).2 = db :=
  activate_error_db h

/-- Witness for C2: device `B` against a key locked to `A` fails
`DeviceLocked` and leaves the store (in particular the stored lock `A`)
unchanged. -/
theorem claim_C2_witness :
    (activateLicenseKey lockedDb 0 "KEY1" "B").1 =
      Except.error ActivationError.DeviceLocked ∧
    (activateLicenseKey lockedDb 0 "KEY1" "B").2 = lockedDb :=
  ⟨rfl, claim_C2_no_side_effects_on_failure lockedDb 0 "KEY1" "B"
    ActivationError.DeviceLocked rfl⟩

/-- C9: stored statuses `expired` and `pending` do not block activation —
for a key that is not past due, only `suspended` causes a status-based
refusal, so (subject to the device-lock check) activation succeeds. -/
theorem claim_C9_stale_status_activates (db : DB) (now : Int) (lk dev : String)
    (row : LicenseKeyRow) (game : GameRow)
    (hl : lookupKeyWithGame db lk = some (row, game))
    (hexp : ¬ row.expires_at < now)
    (hst : row.status = LicenseStatus.expired ∨ row.status = LicenseStatus.pending)
    (hdev : deviceLockBlocks row.device_id dev = false) :
    activateLicenseKey db now lk dev =
      (Except.ok (activationDetails row game dev now),
       activationResultDB db row.id dev now) := by
  have hs : row.status ≠ LicenseStatus.suspended := by
    rcases hst with h | h <;> simp [h]
  exact activate_ok hl hexp hs hdev

/-- Witness for C9: a key with stored status `expired` but `expires_at` in
the future activates successfully. -/
theorem claim_C9_witness :
    activateLicenseKey staleExpiredDb 0 "KEY1" "D" =
      (Except.ok (activationDetails staleExpiredRow sampleGame "D" 0),
       activationResultDB staleExpiredDb 1 "D" 0) :=
  claim_C9_stale_status_activates staleExpiredDb 0 "KEY1" "D" staleExpiredRow sampleGame
    rfl (by decide) (Or.inl rfl) rfl

/-- C10: a stored `device_id` equal to the empty string is treated as not
device-locked (the check tests truthiness, not non-nullness): activation
from any device succeeds — given the key is not past due and not
suspended — and overwrites `device_id` with the requesting device. -/
theorem claim_C10_empty_device_not_locked (db : DB) (now : Int) (lk dev : String)
    (row : LicenseKeyRow) (game : GameRow)
    (hl : lookupKeyWithGame db lk = some (row, game))
    (hdev : row.device_id = some "")
    (hexp : ¬ row.expires_at < now)
    (hst : row.status ≠ LicenseStatus.suspended) :
    activateLicenseKey db now lk dev =
      (Except.ok (activationDetails row game dev now),
       activationResultDB db row.id dev now) ∧
    Option.map (fun r => r.device_id)
        (findLicenseRowByKey (activationResultDB db row.id dev now) lk) =
      some (some dev) := by
  have hd : deviceLockBlocks row.device_id dev = false := by
    rw [hdev]
    rfl
  refine ⟨activate_ok hl hexp hst hd, ?_⟩
  rw [findLicenseRowByKey_activationResultDB, (lookupKeyWithGame_inv hl).1]
  simp [applyActivationUpdate]

/-- Witness for C10: the empty-`device_id` key activates from device `X` and
ends up locked to `X`. -/
theorem claim_C10_witness :
    activateLicenseKey emptyDeviceDb 0 "KEY1" "X" =
      (Except.ok (activationDetails emptyDeviceRow sampleGame "X" 0),
       activationResultDB emptyDeviceDb 1 "X" 0) ∧
    Option.map (fun r => r.device_id)
        (findLicenseRowByKey (activationResultDB emptyDeviceDb 1 "X" 0) "KEY1") =
      some (some "X") :=
  claim_C10_empty_device_not_locked emptyDeviceDb 0 "KEY1" "X" emptyDeviceRow sampleGame
    rfl rfl (by decide) (by decide)

theorem resetDeviceLock_found {db : DB} {kid : Nat} {now : Int} {row : LicenseKeyRow}
    (hid : findLicenseRowById db kid = some row) :
    resetDeviceLock db now kid = (Except.ok true, resetResultDB db kid now) := by
  unfold resetDeviceLock
  rw [hid]
  rfl

theorem lookupKeyWithGame_eq {db : DB} {k : String} {row : LicenseKeyRow} {game : GameRow}
    (hf : findLicenseRowByKey db k = some row)
    (hg : findGameById db row.game_id = some game) :
    lookupKeyWithGame db k = some (row, game) := by
  simp only [lookupKeyWithGame, hf, hg]

/-- Counterexample for C3 as frozen: at `now = 0` an active key with
`expires_at = 259200001` (3 days plus 1 ms) is counted by the handler —
whose threshold is 23:59:59.999 of the day three days ahead — but not by
the claim's `now + exactly 3 days`. -/
theorem claim_C3_counterexample :
    (getDashboardStats lateExpiringDb 0).expiring_keys_3_days = 1 ∧
    expiringKeys3DaysSpecC3 lateExpiringDb 0 = 0 :=
  ⟨rfl, rfl⟩

/-- C3 (amended): `expiring_keys_3_days` counts exactly the keys with stored
status `active` and `expires_at` at most the last millisecond
(23:59:59.999) of the calendar day three days after today — not
`now + 72h` — and with no lower bound: every active key already past due
at `now` still satisfies the threshold. -/
theorem claim_C3_expiring_window (db : DB) (now : Int) :
    (getDashboardStats db now).expiring_keys_3_days =
      db.licenseKeys.countP (fun r =>
        decide (r.status = LicenseStatus.active) &&
        decide (r.expires_at ≤ endOfDayThreeDaysFromNow now)) ∧
    ∀ r ∈ db.licenseKeys, r.status = LicenseStatus.active → r.expires_at < now →
      r.expires_at ≤ endOfDayThreeDaysFromNow now := by
  constructor
  · rw [List.countP_eq_length_filter]
    rfl
  · intro r _ _ hpast
    exact le_of_lt (lt_of_lt_of_le hpast (le_endOfDayThreeDaysFromNow now))

/-- Witness for C3 (amended): a store holding one already-expired active key,
which still falls under the dashboard's three-day threshold. -/
theorem claim_C3_witness :
    (getDashboardStats pastDueDb 0).expiring_keys_3_days =
      pastDueDb.licenseKeys.countP (fun r =>
        decide (r.status = LicenseStatus.active) &&
        decide (r.expires_at ≤ endOfDayThreeDaysFromNow 0)) ∧
    pastDueRow.expires_at ≤ endOfDayThreeDaysFromNow 0 :=
  ⟨(claim_C3_expiring_window pastDueDb 0).1,
   (claim_C3_expiring_window pastDueDb 0).2 pastDueRow (by decide) rfl (by decide)⟩

/-- Counterexample for C4 as frozen: on a key whose `expires_at` (t = 5) has
passed, `resetDeviceLock` succeeds but the following activation still
fails `Expired` — the claim's "no precondition on expires_at or stored
status" does not hold. -/
theorem claim_C4_counterexample :
    (resetDeviceLock expiredLockedDb 10 1).1 = Except.ok true ∧
    (activateLicenseKey (resetDeviceLock expiredLockedDb 10 1).2 10 "KEY1" "B").1 =
      Except.error ActivationError.Expired :=
  ⟨rfl, rfl⟩

/-- C4 (amended): `resetDeviceLock` followed by `activateLicenseKey` from any
device succeeds provided the key is not past due at the activation time and
its stored status is not `suspended` — the reset clears only the device
lock, so the expiry and suspension checks still apply. -/
theorem claim_C4_reset_then_activate (db : DB) (now1 now2 : Int) (kid : Nat) (dev : String)
    (row : LicenseKeyRow) (game : GameRow)
    (hid : findLicenseRowById db kid = some row)
    (hk : findLicenseRowByKey db row.key = some row)
    (hg : findGameById db row.game_id = some game)
    (hexp : ¬ row.expires_at < now2)
    (hst : row.status ≠ LicenseStatus.suspended) :
    (resetDeviceLock db now1 kid).1 = Except.ok true ∧
    ((activateLicenseKey (resetDeviceLock db now1 kid).2 now2 row.key dev).1).isOk = true := by
  have hidp : row.id = kid := by
    have hid' : db.licenseKeys.find? (fun r => r.id = kid) = some row := hid
    simpa using List.find?_some hid'
  have hrow1 : applyResetUpdate kid now1 row =
      { row with device_id := none, updated_at := some now1 } := by
    unfold applyResetUpdate
    rw [if_pos hidp]
  have hk1 : findLicenseRowByKey (resetResultDB db kid now1) row.key =
      some { row with device_id := none, updated_at := some now1 } := by
    rw [findLicenseRowByKey_resetResultDB, hk, Option.map_some', hrow1]
  have hg1 : findGameById (resetResultDB db kid now1)
      ({ row with device_id := none, updated_at := some now1 } : LicenseKeyRow).game_id =
      some game := hg
  have hl1 := lookupKeyWithGame_eq hk1 hg1
  have hact := @activate_ok _ now2 _ dev _ _ hl1 hexp hst rfl
  have h2 : (resetDeviceLock db now1 kid).2 = resetResultDB db kid now1 := by
    rw [resetDeviceLock_found hid]
  refine ⟨by rw [resetDeviceLock_found hid], ?_⟩
  rw [h2, hact]
  rfl

/-- Witness for C4 (amended): reset the `A`-locked, unexpired key, then
activate from `B`. -/
theorem claim_C4_witness :
    (resetDeviceLock lockedDb 0 1).1 = Except.ok true ∧
    ((activateLicenseKey (resetDeviceLock lockedDb 0 1).2 0 lockedRow.key "B").1).isOk = true :=
  claim_C4_reset_then_activate lockedDb 0 0 1 "B" lockedRow sampleGame rfl rfl rfl
    (by decide) (by decide)

/-- C5: `days_until_expiry` returned by a successful activation is the exact
ceiling of `expires_at - now` in whole days — the unique integer `d` with
`(d-1)·day < expires_at - now ≤ d·day` — `is_expiring_soon` is precisely
`days_until_expiry ≤ 3`, and an `expires_at` exactly 72 hours ahead gives
`3` with `is_expiring_soon = true`. -/
theorem claim_C5_days_until_expiry (db : DB) (now : Int) (lk dev : String)
    (details : LicenseDetails)
    (h : (activateLicenseKey db now lk dev).1 = Except.ok details) :
    (details.days_until_expiry - 1) * msPerDay < details.expires_at - now ∧
    details.expires_at - now ≤ details.days_until_expiry * msPerDay ∧
    details.is_expiring_soon = decide (details.days_until_expiry ≤ 3) ∧
    (details.expires_at = now + 72 * 3600000 →
      details.days_until_expiry = 3 ∧ details.is_expiring_soon = true) := by
  obtain ⟨row, game, hl, hexp, hs, hd, hdet, heq⟩ := activate_ok_inv h
  subst hdet
  simp only [activationDetails]
  refine ⟨(jsCeilDiv_msPerDay_bracket (row.expires_at - now)).1,
          (jsCeilDiv_msPerDay_bracket (row.expires_at - now)).2, trivial, ?_⟩
  intro hE
  have hms : row.expires_at - now = 259200000 := by omega
  rw [hms]
  exact ⟨by decide, by decide⟩

/-- Witness for C5: the 72-hour key at t = 0. -/
theorem claim_C5_witness :
    (activationDetails row72h sampleGame "D" 0).days_until_expiry = 3 ∧
    (activationDetails row72h sampleGame "D" 0).is_expiring_soon = true :=
  (claim_C5_days_until_expiry db72h 0 "KEY1" "D"
    (activationDetails row72h sampleGame "D" 0) rfl).2.2.2 (by decide)

/-- C6: for an existing reseller, `quota_used` is the total count of keys with
`created_by` equal to the reseller, irrespective of status;
`quota_remaining = max(0, quota - quota_used)` with a null quota treated as
`0`; and `quota_remaining` is never negative. -/
theorem claim_C6_quota_accounting (db : DB) (rid : Nat) (stats : ResellerStats)
    (u : UserRow) (hu : findUserById db rid = some u)
    (h : getResellerStats db rid = Except.ok stats) :
    stats.quota_used =
      (db.licenseKeys.filter (fun r => decide (r.created_by = rid))).length ∧
    stats.quota_remaining = max 0 (u.quota.getD 0 - (stats.quota_used : Int)) ∧
    0 ≤ stats.quota_remaining := by
  unfold getResellerStats at h
  rw [hu] at h
  have hrec := Except.ok.inj h
  subst hrec
  refine ⟨rfl, ?_, le_max_left 0 _⟩
  dsimp only
  rw [jsNumOrZero_eq_getD]

/-- Witness for C6: the spec scenario — reseller with quota 3 has issued five
keys, so `quota_used = 5` and `quota_remaining = 0`, not negative. -/
theorem claim_C6_witness :
    quotaStats.quota_used =
      (quotaDb.licenseKeys.filter (fun r => decide (r.created_by = 9))).length ∧
    quotaStats.quota_remaining = max 0 (sampleUser.quota.getD 0 - (quotaStats.quota_used : Int)) ∧
    0 ≤ quotaStats.quota_remaining :=
  claim_C6_quota_accounting quotaDb 9 quotaStats sampleUser rfl rfl

/-- C7: in every bulk issuance that succeeds, the generated key strings are
pairwise distinct, and none of them collides with a key already present in
the store — each candidate is rejected if it equals a stored key or a key
generated earlier in the same batch. -/
theorem claim_C7_bulk_keys_distinct (db : DB) (stream : Nat → String) (now : Int)
    (nextId : Nat) (input : BulkCreateInput) (rows : List LicenseKeyRow) (db2 : DB)
    (h : bulkCreateLicenseKeys db stream now nextId input = (Except.ok rows, db2)) :
    (rows.map (fun r => r.key)).Nodup ∧
    ∀ k ∈ rows.map (fun r => r.key), k ∉ db.licenseKeys.map (fun r => r.key) := by
  unfold bulkCreateLicenseKeys at h
  split at h
  · exact absurd (Prod.mk.inj h).1 (by simp)
  · split at h
    · exact absurd (Prod.mk.inj h).1 (by simp)
    · split at h
      · exact absurd (Prod.mk.inj h).1 (by simp)
      · rename_i keys idx2 hgen
        have hrows : rows = buildBulkRows input now nextId keys 0 :=
          (Except.ok.inj (Prod.mk.inj h).1).symm
        have hkeys : rows.map (fun r => r.key) = keys := by
          rw [hrows]
          exact buildBulkRows_map_key input now nextId keys 0
        rw [hkeys]
        exact generateBatchKeys_spec stream (db.licenseKeys.map (fun r => r.key))
          input.customer_names.length [] 0 keys idx2 List.nodup_nil (by simp) hgen

/-- Witness for C7: a two-customer batch drawn from the numeral stream
produces the distinct keys `"0"` and `"1"`. -/
theorem claim_C7_witness : (bulkRows.map (fun r => r.key)).Nodup :=
  (claim_C7_bulk_keys_distinct bulkDb numeralStream 0 10 bulkInput bulkRows
    { bulkDb with licenseKeys := bulkDb.licenseKeys ++ bulkRows } rfl).1

/-- Counterexample for C8 as frozen: the key expiring at t = 100 activates
from device `D` at t = 100, but re-activating from the very same device at
t = 101 fails `Expired` — a second activation from the lock-holding device
can fail. -/
theorem claim_C8_counterexample :
    ((activateLicenseKey sampleDb 100 "KEY1" "D").1).isOk = true ∧
    (activateLicenseKey (activateLicenseKey sampleDb 100 "KEY1" "D").2 101 "KEY1" "D").1 =
      Except.error ActivationError.Expired :=
  ⟨rfl, rfl⟩

/-- C8 (amended): re-activating from the device that already holds the lock
never fails provided the key's `expires_at` has not passed by the time of
the second activation, and is idempotent in effect: the stored `device_id`
is unchanged while `last_used_at` and `updated_at` are refreshed to the
second activation time.  (Suspension needs no extra hypothesis: activation
does not change `status`, and the first success rules `suspended` out.) -/
theorem claim_C8_same_device_reactivation (db : DB) (now1 now2 : Int) (lk dev : String)
    (details : LicenseDetails)
    (h : (activateLicenseKey db now1 lk dev).1 = Except.ok details)
    (hexp : ¬ details.expires_at < now2) :
    ((activateLicenseKey (activateLicenseKey db now1 lk dev).2 now2 lk dev).1).isOk = true ∧
    Option.map (fun r => r.device_id)
        (findLicenseRowByKey
          (activateLicenseKey (activateLicenseKey db now1 lk dev).2 now2 lk dev).2 lk) =
      some (some dev) ∧
    Option.map (fun r => r.last_used_at)
        (findLicenseRowByKey
          (activateLicenseKey (activateLicenseKey db now1 lk dev).2 now2 lk dev).2 lk) =
      some (some now2) ∧
    Option.map (fun r => r.updated_at)
        (findLicenseRowByKey
          (activateLicenseKey (activateLicenseKey db now1 lk dev).2 now2 lk dev).2 lk) =
      some (some now2) := by
  obtain ⟨row, game, hl, hexp1, hs, hd, hdet, heq⟩ := activate_ok_inv h
  subst hdet
  have hdb1 : (activateLicenseKey db now1 lk dev).2 = activationResultDB db row.id dev now1 := by
    rw [heq]
  have hk0 : findLicenseRowByKey db lk = some row := (lookupKeyWithGame_inv hl).1
  have hrow1 : applyActivationUpdate row.id dev now1 row =
      { row with device_id := some dev, last_used_at := some now1, updated_at := some now1 } := by
    unfold applyActivationUpdate
    rw [if_pos rfl]
  have hk1 : findLicenseRowByKey (activationResultDB db row.id dev now1) lk =
      some { row with device_id := some dev, last_used_at := some now1, updated_at := some now1 } := by
    rw [findLicenseRowByKey_activationResultDB, hk0, Option.map_some', hrow1]
  have hg1 : findGameById (activationResultDB db row.id dev now1)
      ({ row with device_id := some dev, last_used_at := some now1, updated_at := some now1 } : LicenseKeyRow).game_id = some game :=
    (lookupKeyWithGame_inv hl).2
  have hl1 := lookupKeyWithGame_eq hk1 hg1
  have hd1 : deviceLockBlocks (some dev) dev = false := by
    simp [deviceLockBlocks]
  have hact2 := @activate_ok _ now2 _ dev _ _ hl1 hexp hs hd1
  have hrow2 : applyActivationUpdate row.id dev now2
      ({ row with device_id := some dev, last_used_at := some now1, updated_at := some now1 } : LicenseKeyRow) =
      { row with device_id := some dev, last_used_at := some now2, updated_at := some now2 } := by
    unfold applyActivationUpdate
    rw [if_pos rfl]
  have hk2 : findLicenseRowByKey
      (activationResultDB (activationResultDB db row.id dev now1) row.id dev now2) lk =
      some { row with device_id := some dev, last_used_at := some now2, updated_at := some now2 } := by
    rw [findLicenseRowByKey_activationResultDB, hk1, Option.map_some', hrow2]
  rw [hdb1, hact2]
  exact ⟨rfl, by rw [hk2]; rfl, by rw [hk2]; rfl, by rw [hk2]; rfl⟩

/-- Witness for C8 (amended): the t = 100 key re-activated from device `D` at
t = 100 again. -/
theorem claim_C8_witness :
    ((activateLicenseKey (activateLicenseKey sampleDb 100 "KEY1" "D").2 100 "KEY1" "D").1).isOk
      = true ∧
    Option.map (fun r => r.device_id)
        (findLicenseRowByKey
          (activateLicenseKey (activateLicenseKey sampleDb 100 "KEY1" "D").2 100 "KEY1" "D").2
          "KEY1") =
      some (some "D") ∧
    Option.map (fun r => r.last_used_at)
        (findLicenseRowByKey
          (activateLicenseKey (activateLicenseKey sampleDb 100 "KEY1" "D").2 100 "KEY1" "D").2
          "KEY1") =
      some (some 100) ∧
    Option.map (fun r => r.updated_at)
        (findLicenseRowByKey
          (activateLicenseKey (activateLicenseKey sampleDb 100 "KEY1" "D").2 100 "KEY1" "D").2
          "KEY1") =
      some (some 100) :=
  claim_C8_same_device_reactivation sampleDb 100 100 "KEY1" "D"
    (activationDetails sampleRow sampleGame "D" 100) rfl (by decide)

end LicenseManager
